import Mathlib

/-!
Verification of the moodle_scraper program (src/main.py): a shallow
embedding of its pure logic and of its network/filesystem interaction,
with theorems settling the specified behaviour of the filename
sanitizer, the page scraper, the course-listing error handling, the
resource fetcher / folder resolver, and the download scheduler.
-/

namespace MoodleScraper

/- ---------------------------------------------------------------
   Python string primitives used by main.py
   --------------------------------------------------------------- -/

/-- Characters treated as whitespace by Python `str.strip` / `str.rstrip`
(no argument): ASCII whitespace 0x09-0x0D and 0x20, the file/group/record/unit
separators 0x1C-0x1F, NEL 0x85, NBSP 0xA0, and the Unicode space code points. -/
def pyIsSpace (c : Char) : Bool :=
  (0x09 ≤ c.toNat && c.toNat ≤ 0x0D) || c.toNat == 0x20 ||
  (0x1C ≤ c.toNat && c.toNat ≤ 0x1F) || c.toNat == 0x85 || c.toNat == 0xA0 ||
  c.toNat == 0x1680 || (0x2000 ≤ c.toNat && c.toNat ≤ 0x200A) ||
  c.toNat == 0x2028 || c.toNat == 0x2029 || c.toNat == 0x202F ||
  c.toNat == 0x205F || c.toNat == 0x3000

/-- Python `str.isalnum` on one character: true for Unicode letters and
numeric characters, not just ASCII. Modelled here exactly on the code points
below 0x100 (ASCII letters and digits, and the Latin-1 letters and numeric
signs: ª ² ³ µ ¹ º ¼ ½ ¾ and the letters 0xC0-0xFF except × and ÷); code
points at or above 0x100, which this development never evaluates the
sanitizer on, are mapped to false. -/
def pyIsAlnum (c : Char) : Bool :=
  c.isAlpha || c.isDigit ||
  c.toNat == 0xAA || c.toNat == 0xB2 || c.toNat == 0xB3 || c.toNat == 0xB5 ||
  c.toNat == 0xB9 || c.toNat == 0xBA ||
  (0xBC ≤ c.toNat && c.toNat ≤ 0xBE) ||
  (0xC0 ≤ c.toNat && c.toNat ≤ 0xFF && c.toNat != 0xD7 && c.toNat != 0xF7)

/-- `str.rstrip()` on a character list: remove trailing Python whitespace. -/
def rstripL (l : List Char) : List Char :=
  ((l.reverse).dropWhile pyIsSpace).reverse

/-- `str.strip()` on a Lean string: remove leading and trailing Python
whitespace. -/
def pyStrip (s : String) : String :=
  ⟨(((s.data.dropWhile pyIsSpace).reverse).dropWhile pyIsSpace).reverse⟩

/-- The character filter of `create_valid_filename`:
`c.isalnum() or c in (' ', '-', '_', '.')`. -/
def keepChar (c : Char) : Bool :=
  pyIsAlnum c || c == ' ' || c == '-' || c == '_' || c == '.'

/-- `create_valid_filename` (src/main.py line 183):
`"".join(c for c in filename if c.isalnum() or c in (' ', '-', '_', '.')).rstrip()`. -/
def create_valid_filename (filename : String) : String :=
  ⟨rstripL (filename.data.filter keepChar)⟩

/-- The character class the spec names for sanitizer output:
`[A-Za-z0-9 _.-]` (ASCII alphanumeric, space, underscore, period, hyphen).
Stated from the words of the spec, for comparison with the code. -/
def specAllowedChar (c : Char) : Bool :=
  c.isAlpha || c.isDigit || c == ' ' || c == '_' || c == '.' || c == '-'

/- ---------------------------------------------------------------
   Substring containment: Python `pat in s` for strings
   --------------------------------------------------------------- -/

/-- Python substring membership `pat in s`, on character lists:
true when `pat` occurs contiguously in `s`. -/
def hasSubL (pat : List Char) : List Char → Bool
  | [] => pat.isEmpty
  | c :: rest => pat.isPrefixOf (c :: rest) || hasSubL pat rest

/-- Python substring membership `pat in s` for strings. -/
def hasSub (pat s : String) : Bool :=
  hasSubL pat.data s.data

/- ---------------------------------------------------------------
   pathlib.Path model
   --------------------------------------------------------------- -/

/-- A `pathlib.Path`, as its list of components in order (empty components
are never stored: `PurePath` drops empty segments when parsing). -/
abbrev PyPath : Type := List String

/-- `path / seg`: appends one segment; an empty segment is dropped, so the
result collapses into the left operand (pathlib parses away empty parts). -/
def pjoin (p : PyPath) (seg : String) : PyPath :=
  if seg = "" then p else (p ++ [seg] : List String)

/-- `Path.name`: the final component (empty for the empty path). -/
def pname (p : PyPath) : String :=
  ((p : List String).getLast?).getD ""

/-- `Path.parent`: the path without its final component. -/
def pparent (p : PyPath) : PyPath :=
  (p : List String).dropLast

/-- `PurePath.suffix` of a name: the portion from the last dot, when that
dot is neither the first nor the last character; otherwise empty
(pathlib: `0 < i < len(name) - 1`). -/
def pySuffix (n : List Char) : List Char :=
  match (n.reverse).indexOf? '.' with
  | none => []
  | some r =>
    let i := n.length - 1 - r
    if 0 < i ∧ i < n.length - 1 then n.drop i else []

/-- A suffix argument `pathlib.with_suffix` accepts without raising:
no path separator, and either empty or a dot followed by something. -/
def validSuffix (suf : String) : Bool :=
  !(hasSub "/" suf) &&
  !((!suf.data.isEmpty && !("." : String).data.isPrefixOf suf.data) || suf == ".")

/-- `Path.with_suffix(suffix)` (pathlib): raises on an invalid suffix or an
empty name; otherwise replaces the existing suffix of the final component
(appends when there is none). `Except.error` models the raised `ValueError`. -/
def with_suffix (p : PyPath) (suf : String) : Except Unit PyPath :=
  if !validSuffix suf then .error ()
  else
    let name := pname p
    if name = "" then .error ()
    else
      let old := pySuffix name.data
      let newName : String := ⟨name.data.take (name.data.length - old.length) ++ suf.data⟩
      .ok ((pparent p) ++ [newName] : List String)

/- ---------------------------------------------------------------
   HTTP / filesystem world and the content-type resolver
   --------------------------------------------------------------- -/

/-- An anchor element parsed out of an HTML response: its `href`, its text
content, and whether it carries a `data-downloadurl` attribute. -/
structure Anchor where
  href : String
  text : String
  hasDownloadUrlAttr : Bool
  deriving DecidableEq, Repr

/-- An HTTP response: status code, declared `Content-Type` header (empty
string when absent, as `headers.get('Content-Type', '')`), body bytes, and
the anchors BeautifulSoup finds in the body text. -/
structure HttpResponse where
  status : Nat
  contentType : String
  body : List Nat
  anchors : List Anchor
  deriving DecidableEq, Repr

/-- Outcome of one `open(path,'wb')/f.write` attempt: success, or an
exception leaving some partially written bytes on disk. -/
inductive WriteOutcome where
  | ok
  | fail (leftover : List Nat)
  deriving DecidableEq, Repr

/-- The environment a download session runs against: what each GET returns
(`none` models a raised transport exception), the outcome of each write
attempt, the base URL of the session, and the behaviour of
`urllib.parse.urljoin` (a library function, supplied by the environment). -/
structure World where
  get : String → Option HttpResponse
  write : PyPath → List Nat → WriteOutcome
  base_url : String
  joinUrl : String → String → String

/-- One filesystem operation the downloader performs. The operation
language has a delete so that "no cleanup is attempted" is expressible;
the embedded code only ever emits writes. -/
inductive FsOp where
  | write (p : PyPath) (bytes : List Nat)
  | delete (p : PyPath)
  deriving DecidableEq, Repr

/-- Result of a fetch: the returned boolean and the filesystem operations
performed, in order. -/
structure DlResult where
  ok : Bool
  ops : List FsOp
  deriving DecidableEq, Repr

/-- `content_type.split(';')[0]`: the part before the first semicolon
(the whole string when there is none). -/
def splitSemi (s : String) : String :=
  ⟨s.data.takeWhile (fun c => c != ';')⟩

/-- The `ext_map` table of `get_extension_from_content_type`
(src/main.py lines 156-168). -/
def ext_map : List (String × String) :=
  [("application/pdf", ".pdf"),
   ("application/msword", ".doc"),
   ("application/vnd.openxmlformats-officedocument.wordprocessingml.document", ".docx"),
   ("application/vnd.ms-excel", ".xls"),
   ("application/vnd.openxmlformats-officedocument.spreadsheetml.sheet", ".xlsx"),
   ("application/zip", ".zip"),
   ("application/octet-stream", ".bin"),
   ("image/jpeg", ".jpg"),
   ("image/png", ".png"),
   ("audio/mpeg", ".mp3"),
   ("video/mp4", ".mp4")]

/-- `get_extension_from_content_type` (src/main.py lines 154-169):
`ext_map.get(content_type.split(';')[0], '')`. -/
def get_extension_from_content_type (content_type : String) : String :=
  ((ext_map.lookup (splitSemi content_type)).getD "")

/- ---------------------------------------------------------------
   Resource fetcher (download_resource / download_folder_contents)
   --------------------------------------------------------------- -/

/-- `session.get` followed by `raise_for_status`: `none` when the GET
raises or the status is in the 400-599 range (requests raises exactly
there). -/
def fetchOk (w : World) (url : String) : Option HttpResponse :=
  match w.get url with
  | none => none
  | some r => if 400 ≤ r.status ∧ r.status < 600 then none else some r

/-- The response `download_resource` ends up with on its FILE branch
(src/main.py lines 110-119): the first GET, and — when the declared
content type contains `text/html` and the page has an anchor with a
`data-downloadurl` attribute — a second GET against that href joined to
the base URL, replacing the response. -/
def fetchFinal (w : World) (url : String) : Option HttpResponse :=
  match fetchOk w url with
  | none => none
  | some r =>
    if hasSub "text/html" r.contentType then
      match r.anchors.find? (fun a => a.hasDownloadUrlAttr) with
      | some dl => fetchOk w (w.joinUrl w.base_url dl.href)
      | none => some r
    else some r

/-- The save path after the extension adjustment of src/main.py lines
121-124: `with_suffix` when the resolved extension is non-empty
(`if file_extension:`), otherwise unchanged. -/
def resolveTarget (p : PyPath) (content_type : String) : Except Unit PyPath :=
  let e := get_extension_from_content_type content_type
  if e = "" then .ok p else with_suffix p e

/-- The FILE branch of `download_resource` (src/main.py lines 110-132):
fetch, adjust the extension, write the body; every raised exception is
caught and turned into `false`, and a failing write leaves its partial
file in place. -/
def downloadFile (w : World) (url : String) (save_path : PyPath) : DlResult :=
  match fetchFinal w url with
  | none => ⟨false, []⟩
  | some r =>
    match resolveTarget save_path r.contentType with
    | .error _ => ⟨false, []⟩
    | .ok sp =>
      match w.write sp r.body with
      | .ok => ⟨true, [.write sp r.body]⟩
      | .fail left => ⟨false, [.write sp left]⟩

/-- The body of `download_folder_contents` (src/main.py lines 134-152),
with the recursive `download_resource` call abstracted as `dl`: GET the
listing (any exception gives `false`), then for every anchor whose href
contains `pluginfile.php`, build `base_path / create_valid_filename(text)`
and invoke `dl`; overall success is true when any item succeeded, and
every item is processed regardless of the failures of the others. -/
def folderStep (w : World) (dl : String → PyPath → DlResult)
    (folder_url : String) (base_path : PyPath) : DlResult :=
  match fetchOk w folder_url with
  | none => ⟨false, []⟩
  | some r =>
    let entries := r.anchors.filter (fun a => hasSub "pluginfile.php" a.href)
    let results := entries.map
      (fun a => dl a.href (pjoin base_path (create_valid_filename (pyStrip a.text))))
    ⟨results.any (fun d => d.ok), (results.map (fun d => d.ops)).flatten⟩

/-- `download_resource` (src/main.py lines 104-132), with a recursion
budget: when the url contains `folder`, delegate to the folder resolver
with `save_path.parent`; otherwise run the FILE branch. Exhausted fuel
models Python reaching its recursion limit, whose `RecursionError` the
bare `except Exception` converts to `false`. -/
def download_resource (w : World) : Nat → String → PyPath → DlResult
  | 0, _, _ => ⟨false, []⟩
  | fuel + 1, url, save_path =>
    if hasSub "folder" url then
      folderStep w (fun u q => download_resource w fuel u q) url (pparent save_path)
    else downloadFile w url save_path

/-- `download_folder_contents` (src/main.py lines 134-152) with a
recursion budget for its `download_resource` calls. -/
def download_folder_contents (w : World) (fuel : Nat)
    (folder_url : String) (base_path : PyPath) : DlResult :=
  folderStep w (fun u q => download_resource w fuel u q) folder_url base_path

/- ---------------------------------------------------------------
   Page scraper (get_course_content)
   --------------------------------------------------------------- -/

/-- An activity item (`li.activity`) of a course page: the text of its
`span.instancename` when present, and the hrefs of its anchors in
document order. -/
structure Activity where
  instancename : Option String
  hrefs : List String
  deriving DecidableEq, Repr

/-- A section container (`li.section`) of a course page: the text of its
`h3.sectionname` when the element is present, and its activities. -/
structure CourseSection where
  sectionname : Option String
  activities : List Activity
  deriving DecidableEq, Repr

/-- A resource kind: the `'type'` field of a scraped descriptor. -/
inductive RKind where
  | folder
  | resource
  deriving DecidableEq, Repr

/-- A scraped resource descriptor
(`{'section':…, 'name':…, 'url':…, 'type':…}`). -/
structure ResourceDesc where
  sectionLabel : String
  name : String
  url : String
  kind : RKind
  deriving DecidableEq, Repr

/-- The display name of a section:
`section_name.text.strip() if section_name else "General"`. -/
def sectionDisplay (s : CourseSection) : String :=
  match s.sectionname with
  | some t => pyStrip t
  | none => "General"

/-- The per-activity step of `get_course_content` (src/main.py lines
81-97): skip when there is no `span.instancename`; take the first anchor
with an href; keep the item only when the href contains `resource` or
`folder`, classifying as FOLDER exactly when it contains `folder`. -/
def processActivity (secName : String) (a : Activity) : Option ResourceDesc :=
  match a.instancename with
  | none => none
  | some nm =>
    match a.hrefs with
    | [] => none
    | url :: _ =>
      if hasSub "resource" url || hasSub "folder" url then
        some ⟨secName, pyStrip nm, url,
              if hasSub "folder" url then .folder else .resource⟩
      else none

/-- `get_course_content` (src/main.py lines 65-102) after parsing: the
descriptors of every section in document order. -/
def get_course_content (sections : List CourseSection) : List ResourceDesc :=
  sections.flatMap
    (fun s => s.activities.filterMap (processActivity (sectionDisplay s)))

/- ---------------------------------------------------------------
   Course listing (get_recent_courses) and the main dispatch
   --------------------------------------------------------------- -/

/-- A JSON value, as `response.json()` produces. -/
inductive JVal where
  | null
  | bool (b : Bool)
  | num (n : Int)
  | str (s : String)
  | arr (xs : List JVal)
  | obj (fields : List (String × JVal))

/-- Python dict subscript on a parsed JSON object: first binding of the
key. -/
def jlookup (fields : List (String × JVal)) (k : String) : Option JVal :=
  (fields.find? (fun kv => kv.1 == k)).map (fun kv => kv.2)

/-- Python truthiness of a JSON value (`if not courses:`). -/
def pyTruthy : JVal → Bool
  | .null => false
  | .bool b => b
  | .num n => n != 0
  | .str s => s != ""
  | .arr xs => !xs.isEmpty
  | .obj fs => !fs.isEmpty

/-- The result-shape handling of `get_recent_courses` (src/main.py lines
51-60) on parsed response data. `Except.error` models an uncaught raised
exception (the only handler catches `RequestException`); the value is
`none` for the logged error-envelope branch, `some` otherwise. -/
def get_recent_courses (data : JVal) : Except String (Option JVal) :=
  match data with
  | .arr (x :: _) =>
    match x with
    | .arr ys => .ok (some (.arr ys))
    | .obj fs =>
      match jlookup fs "data" with
      | some v => .ok (some v)
      | none =>
        match jlookup fs "error" with
        | some _ =>
          match jlookup fs "exception" with
          | some (.obj es) =>
            match jlookup es "message" with
            | some _ => .ok none
            | none => .error "KeyError: message"
          | some _ => .error "TypeError: value is not subscriptable"
          | none => .error "KeyError: exception"
        | none => .ok (some (.arr []))
    | _ => .ok (some (.arr []))
  | _ => .ok (some (.arr []))

/-- How `main` (src/main.py lines 204-215) proceeds after the course
listing call. -/
inductive RunPhase where
  | noCourses
  | promptUser
  deriving DecidableEq, Repr

/-- The dispatch of `main` on the listing result: `if not courses:` logs
and returns before any scraping or download is reached; otherwise the
course menu is printed and the user is prompted. -/
def mainDispatch (courses : Option JVal) : RunPhase :=
  match courses with
  | none => .noCourses
  | some v => if pyTruthy v then .promptUser else .noCourses

/- ---------------------------------------------------------------
   Download scheduler (download_resources_in_parallel)
   --------------------------------------------------------------- -/

/-- `ThreadPoolExecutor(max_workers=5)` (src/main.py line 187). -/
def max_workers : Nat := 5

/-- The collection loop of `download_resources_in_parallel` (src/main.py
lines 196-197): `as_completed` yields the submitted futures in an
arbitrary completion order — a permutation of the submission indices —
and `future.result()` retrieves each result in that order. The call
returns only once this list is exhausted. -/
def runAll (outcomes : List Bool) (completionOrder : List Nat) : List Bool :=
  completionOrder.map (fun i => outcomes.getD i false)

/- ---------------------------------------------------------------
   Concrete worlds used to instantiate the theorems
   --------------------------------------------------------------- -/

/-- A world with one direct PDF resource at a `resource` URL; every
write succeeds. -/
def wOk : World where
  get := fun u =>
    if u = "http://m/mod/resource/view.php?id=7" then
      some ⟨200, "application/pdf", [37, 1], []⟩
    else none
  write := fun _ _ => .ok
  base_url := "http://m"
  joinUrl := fun _ r => r

/-- A world with a folder listing holding two `pluginfile.php` links and
one unrelated link; the first plugin file is served, the GET of the
second raises. -/
def wFolder : World where
  get := fun u =>
    if u = "http://m/mod/folder/view.php?id=9" then
      some ⟨200, "text/html", [],
        [⟨"http://m/pluginfile.php/11/a.pdf", "a.pdf", false⟩,
         ⟨"http://m/pluginfile.php/12/b.pdf", "b.pdf", false⟩,
         ⟨"http://m/about", "about", false⟩]⟩
    else if u = "http://m/pluginfile.php/11/a.pdf" then
      some ⟨200, "application/pdf", [1], []⟩
    else none
  write := fun _ _ => .ok
  base_url := "http://m"
  joinUrl := fun _ r => r

/-- A world where a folder listing contains a plugin-file link whose URL
also contains `folder` (the shape Moodle serves folder contents under:
`pluginfile.php/.../mod_folder/...`); that URL serves a PDF. -/
def cexW : World where
  get := fun u =>
    if u = "http://m/mod/folder/view.php?id=1" then
      some ⟨200, "text/html", [],
        [⟨"pluginfile.php/99/mod_folder/a.pdf", "a.pdf", false⟩]⟩
    else if u = "pluginfile.php/99/mod_folder/a.pdf" then
      some ⟨200, "application/pdf", [1, 2], []⟩
    else none
  write := fun _ _ => .ok
  base_url := "http://m"
  joinUrl := fun _ r => r

/- ---------------------------------------------------------------
   Helper lemmas on rstrip / filter
   --------------------------------------------------------------- -/

theorem dropWhile_idem (p : α → Bool) (l : List α) :
    (l.dropWhile p).dropWhile p = l.dropWhile p := by
  induction l with
  | nil => rfl
  | cons x xs ih =>
    by_cases h : p x = true
    · simp [List.dropWhile, h, ih]
    · simp [List.dropWhile, h]

theorem rstripL_idem (l : List Char) : rstripL (rstripL l) = rstripL l := by
  unfold rstripL
  rw [List.reverse_reverse, dropWhile_idem]

theorem mem_rstripL {c : Char} {l : List Char} (h : c ∈ rstripL l) : c ∈ l := by
  unfold rstripL at h
  rw [List.mem_reverse] at h
  have := (List.dropWhile_sublist (l := l.reverse) (p := pyIsSpace)).mem h
  rwa [List.mem_reverse] at this

theorem head_dropWhile_false {p : α → Bool} {l : List α} {c : α}
    (h : (l.dropWhile p).head? = some c) : p c = false := by
  induction l with
  | nil => simp [List.dropWhile] at h
  | cons x xs ih =>
    by_cases hx : p x = true
    · rw [List.dropWhile_cons_of_pos hx] at h
      exact ih h
    · rw [List.dropWhile_cons_of_neg hx] at h
      simp at h
      rw [← h]
      exact Bool.eq_false_iff.mpr hx

theorem getLast_rstripL_not_space {l : List Char} {c : Char}
    (h : (rstripL l).getLast? = some c) : pyIsSpace c = false := by
  unfold rstripL at h
  rw [List.getLast?_reverse] at h
  exact head_dropWhile_false h

theorem dropWhile_eq_nil_of_all {p : α → Bool} {l : List α}
    (h : ∀ a ∈ l, p a = true) : l.dropWhile p = [] := by
  induction l with
  | nil => rfl
  | cons x xs ih =>
    rw [List.dropWhile_cons_of_pos (h x (by simp))]
    exact ih fun a ha => h a (by simp [ha])

theorem rstripL_eq_nil_of_all {l : List Char}
    (h : ∀ a ∈ l, pyIsSpace a = true) : rstripL l = [] := by
  unfold rstripL
  rw [dropWhile_eq_nil_of_all fun a ha => h a (List.mem_reverse.mp ha)]
  rfl

/-- On ASCII characters the model of Python `isalnum` is exactly ASCII
alphanumeric. -/
theorem pyIsAlnum_ascii {c : Char} (hc : c.toNat < 128)
    (h : pyIsAlnum c = true) : (c.isAlpha || c.isDigit) = true := by
  unfold pyIsAlnum at h
  simp only [Bool.or_eq_true, Bool.and_eq_true, beq_iff_eq, bne_iff_ne,
    decide_eq_true_eq] at h ⊢
  rcases h with (((((((h | h) | h) | h) | h) | h) | h) | h) | h
  · exact h
  all_goals omega

theorem keepChar_ascii {c : Char} (hc : c.toNat < 128)
    (h : keepChar c = true) : specAllowedChar c = true := by
  unfold keepChar at h
  unfold specAllowedChar
  simp only [Bool.or_eq_true, beq_iff_eq] at h ⊢
  rcases h with (((h | h) | h) | h) | h
  · have halnum := pyIsAlnum_ascii hc h
    simp only [Bool.or_eq_true] at halnum
    tauto
  all_goals tauto

/- ---------------------------------------------------------------
   Claim theorems: the filename sanitizer
   --------------------------------------------------------------- -/

/-- C2 (counterexample): the claim that every character of the sanitizer
output lies in `[A-Za-z0-9 _.-]` fails on the code, because Python
`str.isalnum` accepts Unicode letters: `create_valid_filename` keeps
the letter é, which is outside the spec character class. -/
theorem C2_counterexample :
    create_valid_filename "é" = "é" ∧ specAllowedChar 'é' = false := by
  constructor
  · rfl
  · rfl

/-- C2 (amended): for every input string made of ASCII characters, every
character of `create_valid_filename s` lies in `[A-Za-z0-9 _.-]`, and the
result has no trailing whitespace character. -/
theorem C2_sanitize_charclass (s : String)
    (h : ∀ c ∈ s.data, c.toNat < 128) :
    (∀ c ∈ (create_valid_filename s).data, specAllowedChar c = true) ∧
    (∀ c, (create_valid_filename s).data.getLast? = some c →
       pyIsSpace c = false) := by
  constructor
  · intro c hmem
    have hmem' : c ∈ s.data.filter keepChar := mem_rstripL hmem
    have hkeep : keepChar c = true := List.of_mem_filter hmem'
    have hin : c ∈ s.data := List.mem_of_mem_filter hmem'
    exact keepChar_ascii (h c hin) hkeep
  · intro c hlast
    exact getLast_rstripL_not_space hlast

/-- Witness for C2 at the concrete ASCII input `"ab c!/ "`. -/
theorem C2_sanitize_charclass_witness :
    (∀ c ∈ (create_valid_filename "ab c!/ ").data, specAllowedChar c = true) ∧
    (∀ c, (create_valid_filename "ab c!/ ").data.getLast? = some c →
       pyIsSpace c = false) :=
  C2_sanitize_charclass "ab c!/ " (by decide)

/-- C8: `create_valid_filename` is idempotent — filtering keeps only
characters that pass the filter again, and `rstrip` of an already
stripped string is the identity. -/
theorem C8_sanitize_idempotent (s : String) :
    create_valid_filename (create_valid_filename s) = create_valid_filename s := by
  unfold create_valid_filename
  have hfix : (rstripL (s.data.filter keepChar)).filter keepChar
      = rstripL (s.data.filter keepChar) := by
    apply List.filter_eq_self.mpr
    intro a ha
    exact List.of_mem_filter (mem_rstripL ha)
  show (⟨rstripL ((rstripL (s.data.filter keepChar)).filter keepChar)⟩ : String) = _
  rw [hfix, rstripL_idem]

/-- C10: an input with no alphanumeric character (in the Python sense)
and no hyphen, underscore or period sanitizes to the empty string, and
joining that onto a directory collapses into the directory itself. -/
theorem C10_sanitize_empty (s : String)
    (h : ∀ c ∈ s.data, pyIsAlnum c = false ∧ c ≠ '-' ∧ c ≠ '_' ∧ c ≠ '.') :
    create_valid_filename s = "" ∧
    (∀ d : PyPath, pjoin d (create_valid_filename s) = d) := by
  have hempty : create_valid_filename s = "" := by
    unfold create_valid_filename
    have hsp : ∀ a ∈ s.data.filter keepChar, pyIsSpace a = true := by
      intro a ha
      have hkeep : keepChar a = true := List.of_mem_filter ha
      have hin : a ∈ s.data := List.mem_of_mem_filter ha
      obtain ⟨h1, h2, h3, h4⟩ := h a hin
      unfold keepChar at hkeep
      simp only [Bool.or_eq_true, beq_iff_eq] at hkeep
      rcases hkeep with (((h0 | h0) | h0) | h0) | h0
      · rw [h1] at h0
        exact absurd h0 Bool.false_ne_true
      · rw [h0]; rfl
      · exact absurd h0 h2
      · exact absurd h0 h3
      · exact absurd h0 h4
    rw [rstripL_eq_nil_of_all hsp]
  refine ⟨hempty, fun d => ?_⟩
  rw [hempty]
  rfl

/-- Witness for C10 at the concrete input `"/!? \t"`. -/
theorem C10_sanitize_empty_witness :
    create_valid_filename "/!? \t" = "" ∧
    (∀ d : PyPath, pjoin d (create_valid_filename "/!? \t") = d) :=
  C10_sanitize_empty "/!? \t" (by decide)

/- ---------------------------------------------------------------
   Claim theorems: the page scraper
   --------------------------------------------------------------- -/

/-- C4: an activity with a name element and at least one hyperlink is
classified FOLDER when its first href contains `folder`, FILE (kind
`resource`) when it contains `resource` but not `folder`, and is dropped
from the scraped sequence when it contains neither. -/
theorem C4_classification (a : Activity) (nm url : String) (rest : List String)
    (hn : a.instancename = some nm) (hl : a.hrefs = url :: rest) :
    (∀ sec, hasSub "folder" url = true →
       processActivity sec a = some ⟨sec, pyStrip nm, url, .folder⟩) ∧
    (∀ sec, hasSub "folder" url = false → hasSub "resource" url = true →
       processActivity sec a = some ⟨sec, pyStrip nm, url, .resource⟩) ∧
    (hasSub "folder" url = false → hasSub "resource" url = false →
       (∀ sec, processActivity sec a = none) ∧
       (∀ s : CourseSection, s.activities = [a] → get_course_content [s] = [])) := by
  refine ⟨?_, ?_, ?_⟩
  · intro sec hf
    unfold processActivity
    rw [hn, hl]
    simp [hf]
  · intro sec hf hr
    unfold processActivity
    rw [hn, hl]
    simp [hf, hr]
  · intro hf hr
    have hnone : ∀ sec, processActivity sec a = none := by
      intro sec
      unfold processActivity
      rw [hn, hl]
      simp [hf, hr]
    refine ⟨hnone, fun s hs => ?_⟩
    simp [get_course_content, hs, hnone]

/-- Witness for C4 at a concrete activity with one href. -/
theorem C4_classification_witness :
    (∀ sec, hasSub "folder" "/mod/folder/view.php?id=3" = true →
       processActivity sec ⟨some "Notes", ["/mod/folder/view.php?id=3"]⟩ =
         some ⟨sec, "Notes", "/mod/folder/view.php?id=3", .folder⟩) ∧
    (∀ sec, hasSub "folder" "/mod/folder/view.php?id=3" = false →
       hasSub "resource" "/mod/folder/view.php?id=3" = true →
       processActivity sec ⟨some "Notes", ["/mod/folder/view.php?id=3"]⟩ =
         some ⟨sec, "Notes", "/mod/folder/view.php?id=3", .resource⟩) ∧
    (hasSub "folder" "/mod/folder/view.php?id=3" = false →
       hasSub "resource" "/mod/folder/view.php?id=3" = false →
       (∀ sec, processActivity sec ⟨some "Notes", ["/mod/folder/view.php?id=3"]⟩ = none) ∧
       (∀ s : CourseSection,
          s.activities = [⟨some "Notes", ["/mod/folder/view.php?id=3"]⟩] →
          get_course_content [s] = [])) :=
  C4_classification ⟨some "Notes", ["/mod/folder/view.php?id=3"]⟩
    "Notes" "/mod/folder/view.php?id=3" [] rfl rfl

/- ---------------------------------------------------------------
   Claim theorems: course listing error envelope
   --------------------------------------------------------------- -/

/-- C7: when the listing response is an error envelope — a dict with an
`error` key (and no `data` key) whose `exception.message` is present —
`get_recent_courses` logs and returns `None`, and `main` then takes the
no-courses error path, which returns before any scraping or download. -/
theorem C7_error_envelope (fs es : List (String × JVal)) (e m : JVal)
    (rest : List JVal)
    (hd : jlookup fs "data" = none)
    (he : jlookup fs "error" = some e)
    (hex : jlookup fs "exception" = some (.obj es))
    (hm : jlookup es "message" = some m) :
    get_recent_courses (.arr (.obj fs :: rest)) = .ok none ∧
    mainDispatch none = .noCourses := by
  constructor
  · unfold get_recent_courses
    dsimp only
    rw [hd, he, hex]
    dsimp only
    rw [hm]
  · rfl

/-- Witness for C7 at the concrete envelope
`[ { error: true, exception: { message: "boom" } } ]`. -/
theorem C7_error_envelope_witness :
    get_recent_courses
      (.arr [.obj [("error", .bool true),
                   ("exception", .obj [("message", .str "boom")])]]) = .ok none ∧
    mainDispatch none = .noCourses :=
  C7_error_envelope
    [("error", .bool true), ("exception", .obj [("message", .str "boom")])]
    [("message", .str "boom")] (.bool true) (.str "boom") [] rfl rfl rfl rfl

/- ---------------------------------------------------------------
   Helper lemmas on paths and the extension table
   --------------------------------------------------------------- -/

/-- Every extension the content-type table can produce (including the
empty default) is a suffix argument `with_suffix` accepts. -/
theorem validSuffix_ext (ct : String) :
    validSuffix (get_extension_from_content_type ct) = true := by
  unfold get_extension_from_content_type ext_map
  simp only [List.lookup]
  repeat' split
  all_goals rfl

theorem pname_append (q : PyPath) (n : String) :
    pname ((q ++ [n] : List String)) = n := by
  unfold pname
  rw [List.getLast?_concat]
  rfl

/-- Unfolding `download_resource` on a URL with no `folder` marker: the
FILE branch runs, independent of the remaining recursion budget. -/
theorem download_resource_file_branch (w : World) (fuel : Nat) (url : String)
    (p : PyPath) (hu : hasSub "folder" url = false) :
    download_resource w (fuel + 1) url p = downloadFile w url p := by
  unfold download_resource
  rw [hu]
  simp

/- ---------------------------------------------------------------
   Claim theorems: the resource fetcher
   --------------------------------------------------------------- -/

/-- C6: on a FILE resource (no `folder` marker in the URL),
`download_resource` returns true exactly when the fetch, the extension
adjustment and the write all complete; a failing write still returns
false but leaves the partially written file in place; and the fetcher
only ever emits write operations (no cleanup deletes). -/
theorem C6_file_result (w : World) (fuel : Nat) (url : String) (p : PyPath)
    (hu : hasSub "folder" url = false) :
    ((download_resource w (fuel + 1) url p).ok = true ↔
      ∃ r sp, fetchFinal w url = some r ∧
        resolveTarget p r.contentType = Except.ok sp ∧
        w.write sp r.body = .ok) ∧
    (∀ r sp left, fetchFinal w url = some r →
        resolveTarget p r.contentType = Except.ok sp →
        w.write sp r.body = .fail left →
        download_resource w (fuel + 1) url p = ⟨false, [.write sp left]⟩) ∧
    (∀ op ∈ (download_resource w (fuel + 1) url p).ops,
        ∃ q bs, op = FsOp.write q bs) := by
  rw [download_resource_file_branch w fuel url p hu]
  unfold downloadFile
  rcases hf : fetchFinal w url with _ | r <;> dsimp only
  · refine ⟨by simp, ?_, by simp⟩
    rintro r2 sp2 left h
    exact absurd h (by simp)
  · rcases ht : resolveTarget p r.contentType with e | sp <;> dsimp only
    · refine ⟨?_, ?_, by simp⟩
      · constructor
        · intro h
          exact absurd h (by simp)
        · rintro ⟨r2, sp2, hr2, ht2, hw2⟩
          injection hr2 with hr2
          subst hr2
          rw [ht] at ht2
          exact absurd ht2 (by simp)
      · rintro r2 sp2 left hr2 ht2 hw2
        injection hr2 with hr2
        subst hr2
        rw [ht] at ht2
        exact absurd ht2 (by simp)
    · rcases hw : w.write sp r.body with _ | left <;> dsimp only
      · refine ⟨?_, ?_, ?_⟩
        · constructor
          · intro _
            exact ⟨r, sp, rfl, ht, hw⟩
          · intro _
            rfl
        · rintro r2 sp2 left hr2 ht2 hw2
          injection hr2 with hr2
          subst hr2
          rw [ht] at ht2
          injection ht2 with ht2
          subst ht2
          rw [hw] at hw2
          exact absurd hw2 (by simp)
        · intro op hop
          simp only [List.mem_singleton] at hop
          exact ⟨sp, r.body, hop⟩
      · refine ⟨?_, ?_, ?_⟩
        · constructor
          · intro h
            exact absurd h (by simp)
          · rintro ⟨r2, sp2, hr2, ht2, hw2⟩
            injection hr2 with hr2
            subst hr2
            rw [ht] at ht2
            injection ht2 with ht2
            subst ht2
            rw [hw] at hw2
            exact absurd hw2 (by simp)
        · rintro r2 sp2 left2 hr2 ht2 hw2
          injection hr2 with hr2
          subst hr2
          rw [ht] at ht2
          injection ht2 with ht2
          subst ht2
          rw [hw] at hw2
          injection hw2 with hw2
          subst hw2
          rfl
        · intro op hop
          simp only [List.mem_singleton] at hop
          exact ⟨sp, left, hop⟩

/-- Witness for C6: in `wOk` the download returns true, obtained through
the iff of the theorem. -/
theorem C6_file_result_witness :
    (download_resource wOk 1 "http://m/mod/resource/view.php?id=7"
       ["d", "notes.txt"]).ok = true :=
  ((C6_file_result wOk 0 "http://m/mod/resource/view.php?id=7"
      ["d", "notes.txt"] (by decide)).1).mpr
    ⟨⟨200, "application/pdf", [37, 1], []⟩, ["d", "notes.pdf"], rfl, rfl, rfl⟩

/-- C5: when the final response declares a content type known to the
resolver, the write path is the target with its suffix replaced by the
resolved extension (so it ends in that extension); when the content type
is unknown the target path is unchanged. -/
theorem C5_extension_override (w : World) (url : String) (p : PyPath)
    (r : HttpResponse) (hr : fetchFinal w url = some r) (hn : pname p ≠ "") :
    (∀ e, get_extension_from_content_type r.contentType = e → e ≠ "" →
      ∃ sp, resolveTarget p r.contentType = Except.ok sp ∧
        (pname sp).data =
          (pname p).data.take
            ((pname p).data.length - (pySuffix (pname p).data).length)
            ++ e.data ∧
        e.data <:+ (pname sp).data ∧
        (w.write sp r.body = .ok →
           downloadFile w url p = ⟨true, [.write sp r.body]⟩)) ∧
    (get_extension_from_content_type r.contentType = "" →
      resolveTarget p r.contentType = Except.ok p ∧
      (w.write p r.body = .ok →
         downloadFile w url p = ⟨true, [.write p r.body]⟩)) := by
  constructor
  · intro e he hne
    have hvs : validSuffix e = true := by
      rw [← he]
      exact validSuffix_ext r.contentType
    have hws : with_suffix p e =
        Except.ok ((pparent p) ++
          [⟨(pname p).data.take
              ((pname p).data.length - (pySuffix (pname p).data).length)
              ++ e.data⟩] : List String) := by
      unfold with_suffix
      rw [hvs]
      dsimp only
      rw [if_neg hn]
      simp
    have hrt : resolveTarget p r.contentType =
        Except.ok ((pparent p) ++
          [⟨(pname p).data.take
              ((pname p).data.length - (pySuffix (pname p).data).length)
              ++ e.data⟩] : List String) := by
      unfold resolveTarget
      rw [he]
      rw [if_neg hne]
      exact hws
    refine ⟨_, hrt, ?_, ?_, ?_⟩
    · rw [pname_append]
    · rw [pname_append]
      exact List.suffix_append _ _
    · intro hwr
      unfold downloadFile
      rw [hr]
      dsimp only
      rw [hrt]
      dsimp only
      rw [hwr]
  · intro he
    have hrt : resolveTarget p r.contentType = Except.ok p := by
      unfold resolveTarget
      rw [he]
      rw [if_pos rfl]
    refine ⟨hrt, fun hwr => ?_⟩
    unfold downloadFile
    rw [hr]
    dsimp only
    rw [hrt]
    dsimp only
    rw [hwr]

/-- Witness for C5: in `wOk`, a PDF response rewrites the `.txt` target
to `.pdf` and the file is written there. -/
theorem C5_extension_override_witness :
    ∃ sp, resolveTarget ["d", "notes.txt"] "application/pdf" = Except.ok sp ∧
      (pname sp).data =
        (pname ["d", "notes.txt"]).data.take
          ((pname ["d", "notes.txt"]).data.length -
            (pySuffix (pname ["d", "notes.txt"]).data).length)
          ++ (".pdf" : String).data ∧
      (".pdf" : String).data <:+ (pname sp).data ∧
      (wOk.write sp [37, 1] = .ok →
        downloadFile wOk "http://m/mod/resource/view.php?id=7" ["d", "notes.txt"] =
          ⟨true, [.write sp [37, 1]]⟩) :=
  (C5_extension_override wOk "http://m/mod/resource/view.php?id=7"
      ["d", "notes.txt"] ⟨200, "application/pdf", [37, 1], []⟩ rfl
      (by decide)).1 ".pdf" rfl (by decide)

theorem any_map_filter (l : List α) (q : α → Bool) (f : α → β) (pk : β → Bool) :
    (((l.filter q).map f).any pk = true) ↔
      ∃ a ∈ l, q a = true ∧ pk (f a) = true := by
  simp only [List.any_eq_true, List.mem_map, List.mem_filter]
  constructor
  · rintro ⟨b, ⟨a, ⟨ha, hq⟩, hfa⟩, hpk⟩
    subst hfa
    exact ⟨a, ha, hq, hpk⟩
  · rintro ⟨a, ha, hq, hpk⟩
    exact ⟨f a, ⟨a, ⟨ha, hq⟩, rfl⟩, hpk⟩

/-- C3: `download_folder_contents` returns false when the listing GET
itself fails; when the listing succeeds, it returns true exactly when
some contained `pluginfile.php` link downloads successfully, and the
filesystem operations are those of every contained link in order —
one failing item removes nothing from the processing of the others. -/
theorem C3_folder_aggregate (w : World) (fuel : Nat) (furl : String)
    (dir : PyPath) :
    (fetchOk w furl = none →
       download_folder_contents w fuel furl dir = ⟨false, []⟩) ∧
    (∀ r, fetchOk w furl = some r →
       ((download_folder_contents w fuel furl dir).ok = true ↔
         ∃ a ∈ r.anchors, hasSub "pluginfile.php" a.href = true ∧
           (download_resource w fuel a.href
             (pjoin dir (create_valid_filename (pyStrip a.text)))).ok = true) ∧
       (download_folder_contents w fuel furl dir).ops =
         ((r.anchors.filter (fun a => hasSub "pluginfile.php" a.href)).map
           (fun a => (download_resource w fuel a.href
             (pjoin dir (create_valid_filename (pyStrip a.text)))).ops)).flatten) := by
  constructor
  · intro hf
    unfold download_folder_contents folderStep
    rw [hf]
  · intro r hf
    unfold download_folder_contents folderStep
    rw [hf]
    dsimp only
    constructor
    · exact any_map_filter r.anchors _ _ _
    · rw [List.map_map]
      rfl

/-- Witness for C3: in `wFolder` the listing has three links, two of them
plugin files, one of which downloads; the overall result is true. -/
theorem C3_folder_aggregate_witness :
    (download_folder_contents wFolder 1 "http://m/mod/folder/view.php?id=9"
       ["d"]).ok = true :=
  (((C3_folder_aggregate wFolder 1 "http://m/mod/folder/view.php?id=9"
       ["d"]).2
      ⟨200, "text/html", [],
        [⟨"http://m/pluginfile.php/11/a.pdf", "a.pdf", false⟩,
         ⟨"http://m/pluginfile.php/12/b.pdf", "b.pdf", false⟩,
         ⟨"http://m/about", "about", false⟩]⟩ rfl).1).mpr
    ⟨⟨"http://m/pluginfile.php/11/a.pdf", "a.pdf", false⟩, by decide,
      by decide, by decide⟩

/-- C1 (counterexample): a folder entry whose plugin-file URL contains
`folder` as a substring — the shape Moodle uses for folder contents,
`pluginfile.php/.../mod_folder/...` — is passed back into
`download_resource` and re-enters folder resolution rather than the FILE
branch: the folder with that single contained link fails overall even
though the FILE branch on the same link would download the file. -/
theorem C1_counterexample :
    hasSub "pluginfile.php" "pluginfile.php/99/mod_folder/a.pdf" = true ∧
    (download_folder_contents cexW 2 "http://m/mod/folder/view.php?id=1"
       ["d"]).ok = false ∧
    downloadFile cexW "pluginfile.php/99/mod_folder/a.pdf" ["d", "a.pdf"] =
      ⟨true, [.write ["d", "a.pdf"] [1, 2]]⟩ ∧
    download_resource cexW 2 "pluginfile.php/99/mod_folder/a.pdf"
        ["d", "a.pdf"] =
      download_folder_contents cexW 1 "pluginfile.php/99/mod_folder/a.pdf"
        ["d"] := by
  refine ⟨by decide, by decide, by decide, rfl⟩

/-- C1 (amended): a contained link whose URL does not contain `folder` is
handled by the FILE branch with no further recursion; hence when every
plugin-file link of a folder listing is free of the `folder` marker, the
folder resolution terminates after one level — its result does not depend
on the remaining recursion budget. -/
theorem C1_one_level_recursion (w : World) :
    (∀ url p fuel, hasSub "folder" url = false →
        download_resource w (fuel + 1) url p = downloadFile w url p) ∧
    (∀ furl dir fuel,
        (∀ r, fetchOk w furl = some r →
           ∀ a ∈ r.anchors, hasSub "pluginfile.php" a.href = true →
             hasSub "folder" a.href = false) →
        download_folder_contents w (fuel + 1) furl dir =
          download_folder_contents w 1 furl dir) := by
  refine ⟨fun url p fuel h => download_resource_file_branch w fuel url p h, ?_⟩
  intro furl dir fuel hlinks
  unfold download_folder_contents folderStep
  rcases hf : fetchOk w furl with _ | r
  · rfl
  · dsimp only
    have hmap : ∀ a ∈ r.anchors.filter (fun a => hasSub "pluginfile.php" a.href),
        download_resource w (fuel + 1) a.href
            (pjoin dir (create_valid_filename (pyStrip a.text))) =
          download_resource w 1 a.href
            (pjoin dir (create_valid_filename (pyStrip a.text))) := by
      intro a ha
      have hmem := (List.mem_filter.mp ha).1
      have hpred : hasSub "pluginfile.php" a.href = true := (List.mem_filter.mp ha).2
      have hnof : hasSub "folder" a.href = false := hlinks r hf a hmem hpred
      rw [download_resource_file_branch w fuel a.href _ hnof]
      rw [show (1 : Nat) = 0 + 1 from rfl,
        download_resource_file_branch w 0 a.href _ hnof]
    rw [List.map_congr_left hmap]

/-- Witness for C1: `wFolder` satisfies the no-`folder`-marker condition
on its plugin-file links, so its folder resolution is independent of the
recursion budget. -/
theorem C1_one_level_recursion_witness :
    download_folder_contents wFolder 7 "http://m/mod/folder/view.php?id=9"
        ["d"] =
      download_folder_contents wFolder 1 "http://m/mod/folder/view.php?id=9"
        ["d"] :=
  (C1_one_level_recursion wFolder).2 "http://m/mod/folder/view.php?id=9"
    ["d"] 6 (by decide)

/- ---------------------------------------------------------------
   Claim theorems: the download scheduler
   --------------------------------------------------------------- -/

theorem map_getD_range (l : List Bool) :
    (List.range l.length).map (fun i => l.getD i false) = l := by
  induction l with
  | nil => rfl
  | cons x xs ih =>
    have hcomp : ((fun i => (x :: xs).getD i false) ∘ Nat.succ)
        = fun i => xs.getD i false := by
      funext i
      rfl
    rw [List.length_cons, List.range_succ_eq_map, List.map_cons, List.map_map,
      hcomp, ih]
    rfl

/-- C9: for any per-item outcomes and any completion order (any
permutation of the submission indices), the scheduler retrieves every
item's individual result — the retrieved results are a permutation of
the outcomes, one retrieval per item — before returning, and the pool
size is the fixed 5. An item's failure (`false` outcome) is an ordinary
retrieved value, so it neither aborts nor blocks the others. -/
theorem C9_scheduler_barrier (outcomes : List Bool) (order : List Nat)
    (h : order.Perm (List.range outcomes.length)) :
    (runAll outcomes order).Perm outcomes ∧
    (runAll outcomes order).length = outcomes.length ∧
    max_workers = 5 := by
  have hmap := h.map (fun i => outcomes.getD i false)
  rw [map_getD_range] at hmap
  exact ⟨hmap, hmap.length_eq, rfl⟩

/-- Witness for C9 with three outcomes, one a failure, completing out of
submission order. -/
theorem C9_scheduler_barrier_witness :
    (runAll [true, false, true] [2, 0, 1]).Perm [true, false, true] ∧
    (runAll [true, false, true] [2, 0, 1]).length = 3 ∧
    max_workers = 5 :=
  C9_scheduler_barrier [true, false, true] [2, 0, 1] (by decide)

end MoodleScraper
